import Mathlib

/-!
Tamara point-of-sale payment terminal.

Shallow embedding of `pos_tamara_payment/static/src/app/payment_tamara.js`
(class `PaymentTamara`) and of the notification handler installed by
`pos_tamara_payment/static/src/overrides/pos_store.js`.

Conventions of the embedding.

* A payment line is a JavaScript object shared by reference.  The store
  `models["pos.payment"]` is a list and a line reference is its position in
  that list.  Methods of the terminal that receive a line take the current
  value of the line and give back the mutated value.
* `undefined` (an absent field) is `none`.  The empty string is the other
  falsy value that can occur in the fields modelled here.
* Every call of `waitForPaymentConfirmation` creates one promise, one
  `setInterval` handle and one `setTimeout` handle.  The three are recorded
  together in a `Wait` record and are identified by its position in
  `Terminal.waits`.
* `_t` is the untranslated catalogue: it gives back the source term, with
  the `%s` placeholder replaced by the argument.
* `console.log` and `console.error` have no effect on the state.
* An `async` method is suspended at each `await` of a remote call.  The
  halves before and after the `await` are separate definitions, which the
  schedules of `step` interleave with the other events; the method as a
  whole takes as a parameter what the other tasks do to the terminal and to
  the line while it is suspended.
* Line uuids are identifiers generated by the host; none of them is a
  property name of `Object.prototype`, so a read of `paymentLineResolvers`
  is a lookup among its own keys.
* Payloads come from JSON: `status` is a string, and the optional fields
  `order_id` and `transaction_id` are strings when present.
* What `prompt` returns is an optional string, `none` when the cashier
  cancels.  White space is the class `\s` of the language, which is also
  what `trim()` removes.
* Amounts are integers, so `Math.abs` is the absolute value of an integer.
-/

namespace Tamara

/-! ## JavaScript values and object lookup -/

/-- Value obtained by reading a property of an object whose own values are
strings: a string, or the value that `Object.prototype` holds under the
given property name (a function, or the prototype object itself for
`__proto__`), or `undefined` when the property is absent. -/
inductive JsVal where
  | str (s : String)
  | inherited (key : String)
  | undefined
  deriving DecidableEq, Repr

/-- Truthiness of a value: the empty string and `undefined` are falsy,
functions and objects are truthy. -/
def JsVal.truthy : JsVal → Bool
  | .str s => s != ""
  | .inherited _ => true
  | .undefined => false

/-- An optional string field as a value. -/
def JsVal.ofOption : Option String → JsVal
  | some s => .str s
  | none => .undefined

/-- Property names that every object literal inherits from
`Object.prototype`. -/
def objectPrototypeKeys : List String :=
  ["constructor", "__defineGetter__", "__defineSetter__", "hasOwnProperty",
   "__lookupGetter__", "__lookupSetter__", "isPrototypeOf",
   "propertyIsEnumerable", "toString", "valueOf", "__proto__",
   "toLocaleString"]

/-- Property read `obj[key]` on an object literal with the given own
properties: own properties first, then the prototype chain; `none` is
`undefined`. -/
def jsGet (own : List (String × String)) (key : String) : Option JsVal :=
  match own.lookup key with
  | some v => some (.str v)
  | none => if key ∈ objectPrototypeKeys then some (.inherited key) else none

/-- The expression `a || b` on optional strings: `a` when it is truthy,
otherwise `b` whatever it is. -/
def jsOr (a b : Option String) : Option String :=
  match a with
  | some s => if s = "" then b else some s
  | none => b

/-- Truthiness of an optional string. -/
def jsTruthy (a : Option String) : Bool :=
  match a with
  | some s => s != ""
  | none => false

/-! ## Data model -/

/-- A payment line (`pos.payment` record).  `payment_status = ""` stands for
a status that was never set.  `tamaraOrderId` is `line.uiState?.tamaraOrderId`. -/
structure PaymentLine where
  uuid : String
  amount : Int
  payment_status : String
  transaction_id : Option String
  tamaraOrderId : Option String
  deriving DecidableEq, Repr

/-- Modelled from the spec: the host method `set_payment_status` of a payment
line is not part of the sources; the spec lists it as `setStatus`, the
mutation that stores the status on the line. -/
def PaymentLine.set_payment_status (l : PaymentLine) (status : String) : PaymentLine :=
  { l with payment_status := status }

/-- Modelled from the spec: the host method `get_payment_status` is not part
of the sources; it reads the mutable `paymentStatus` of the line. -/
def PaymentLine.get_payment_status (l : PaymentLine) : String :=
  l.payment_status

/-- Modelled from the spec: the host method `is_done` of a payment line is
not part of the sources; the spec lists it as `isFinalized` and reads it as
the line having reached the status `done`. -/
def PaymentLine.is_done (l : PaymentLine) : Bool :=
  l.payment_status == "done"

/-- Payload of a push notification, and body of a poll response. -/
structure Notification where
  config_id : Nat
  order_id : Option String
  status : String
  transaction_id : Option String
  deriving DecidableEq, Repr

/-- Outcome of the `proxy_tamara_poll` request of one poll tick: the call
throws, or it returns a falsy value, or it returns an object. -/
inductive PollReply where
  | throws
  | falsy
  | resp (r : Notification)
  deriving DecidableEq, Repr

/-- Response object of `proxy_tamara_checkout`.  `error = none` is an absent
`error` field, `error = some m` an error object whose `message` is `m`. -/
structure CheckoutResponse where
  error : Option (Option String)
  order_id : Option String
  demo_mode : Bool
  deriving DecidableEq, Repr

/-- Outcome of the `proxy_tamara_checkout` request: the call throws (this
covers a null response, on which reading `response.error` throws inside the
same `try`), or it returns an object. -/
inductive CheckoutReply where
  | throws
  | resp (r : CheckoutResponse)
  deriving DecidableEq, Repr

/-- A remote call made through `pos.data.silentCall`. -/
inductive Request where
  | checkout (phone_number : String) (amount : Int) (currency : String)
      (order_reference : String)
  | poll (order_id : Option String)
  | cancel (order_id : Option String)
  | refund (order_id : String) (total_amount : Int) (currency : String)
      (comment : String)
  deriving DecidableEq, Repr

/-- An `AlertDialog` added to the dialog service. -/
structure Dialog where
  title : String
  body : JsVal
  deriving DecidableEq, Repr

/-- Closure state of one call of `waitForPaymentConfirmation`: the line
captured by the two callbacks, the `setInterval` handle (`pollActive` until
`clearInterval`, next callback at `pollDue`) and the `setTimeout` handle
(callback at `deadlineDue`, `deadlinePending` until it has run). -/
structure Wait where
  line : Nat
  pollActive : Bool
  pollDue : Nat
  deadlineDue : Nat
  deadlinePending : Bool
  deriving DecidableEq, Repr

/-- Values read from `this.pos` and `this.payment_method_id`. -/
structure Pos where
  config_id : Nat
  payment_method_id : Nat
  currency : String
  order_uuid : String
  session_id : Nat
  deriving DecidableEq, Repr

/-- State of the `PaymentTamara` instance together with what it does to its
collaborators.

* `paymentLineResolvers` maps a line uuid to the wait whose `resolve`
  function is stored under it;
* `resolveCalls` logs every call of a `resolve` function (the promise of a
  wait takes the value of the first call);
* `dialogs` logs `_show_error` and `_show_info`;
* `requests` logs the remote calls;
* `hostResponses` logs the calls `line.handle_payment_response(isSuccess)`
  by line uuid. -/
structure Terminal where
  paymentLineResolvers : List (String × Nat)
  waits : List Wait
  resolveCalls : List (Nat × Bool)
  dialogs : List Dialog
  requests : List Request
  hostResponses : List (String × Bool)
  deriving DecidableEq, Repr

/-- The terminal after `setup()`. -/
def Terminal.setup : Terminal :=
  { paymentLineResolvers := [], waits := [], resolveCalls := [], dialogs := [],
    requests := [], hostResponses := [] }

/-! ## Registration table -/

/-- Read `this.paymentLineResolvers[uuid]`. -/
def Terminal.resolver (t : Terminal) (uuid : String) : Option Nat :=
  t.paymentLineResolvers.lookup uuid

/-- Remove the key: `delete this.paymentLineResolvers[uuid]`. -/
def Terminal.deleteResolver (t : Terminal) (uuid : String) : Terminal :=
  { t with paymentLineResolvers := t.paymentLineResolvers.filter (fun e => e.1 != uuid) }

/-- Assign the key: `this.paymentLineResolvers[uuid] = resolve`. -/
def Terminal.setResolver (t : Terminal) (uuid : String) (k : Nat) : Terminal :=
  { t with paymentLineResolvers :=
      (uuid, k) :: t.paymentLineResolvers.filter (fun e => e.1 != uuid) }

/-- Call the `resolve` function of wait `k`. -/
def Terminal.callResolve (t : Terminal) (k : Nat) (v : Bool) : Terminal :=
  { t with resolveCalls := t.resolveCalls ++ [(k, v)] }

/-- Value of the promise of wait `k`: that of the first `resolve` call, or
`none` while the promise is pending. -/
def Terminal.promiseValue (t : Terminal) (k : Nat) : Option Bool :=
  t.resolveCalls.lookup k

/-- Apply `f` to the element at position `k` of a list. -/
def modifyAt {α : Type} (f : α → α) : Nat → List α → List α
  | _, [] => []
  | 0, a :: as => f a :: as
  | k + 1, a :: as => a :: modifyAt f k as

/-- Stop the interval of wait `k`: `clearInterval(pollTimer)`. -/
def Terminal.clearInterval (t : Terminal) (k : Nat) : Terminal :=
  { t with waits := modifyAt (fun w => { w with pollActive := false }) k t.waits }

/-! ## Messages and dialogs -/

/-- Default title of `_show_error`. -/
def errorTitle : String := "Tamara Payment Error"

/-- Default title of `_show_info`. -/
def infoTitle : String := "Tamara Payment"

/-- Method `_show_error(msg)` with the default title. -/
def Terminal._show_error (t : Terminal) (msg : JsVal) : Terminal :=
  { t with dialogs := t.dialogs ++ [{ title := errorTitle, body := msg }] }

/-- Method `_show_info(msg)` with the default title. -/
def Terminal._show_info (t : Terminal) (msg : JsVal) : Terminal :=
  { t with dialogs := t.dialogs ++ [{ title := infoTitle, body := msg }] }

/-- The object literal `messages` of `_get_error_message`. -/
def messages : List (String × String) :=
  [("declined", "Payment was declined by customer or Tamara."),
   ("expired", "Payment session expired. Please try again."),
   ("failed", "Payment failed. Please try again."),
   ("canceled", "Payment was cancelled.")]

/-- The term `_t('Payment unsuccessful. Status: %s', status)`: the
placeholder ends the term. -/
def genericMessage (status : String) : String :=
  "Payment unsuccessful. Status: " ++ status

/-- Method `_get_error_message(status)`:
`messages[status] || _t('Payment unsuccessful. Status: %s', status)`. -/
def _get_error_message (status : String) : JsVal :=
  match jsGet messages status with
  | some v => if v.truthy then v else .str (genericMessage status)
  | none => .str (genericMessage status)

/-- Message of the deadline callback. -/
def timeoutMessage : String :=
  "Payment timeout. Customer did not complete payment within 5 minutes."

/-- Message of `_handle_odoo_connection_failure`. -/
def connectionMessage : String :=
  "Could not connect to the Odoo server. Please check your internet connection and try again."

/-- Message of a successful resolution. -/
def approvedMessage : String := "Payment approved successfully!"

/-- Fallback of the business error branch of `_tamara_create_checkout`. -/
def requestFailedMessage : String := "Payment request failed"

/-- Information shown after a checkout session was created in demo mode. -/
def demoWaitMessage : String :=
  "🎭 DEMO MODE: Simulating payment flow. Webhook will arrive in a few seconds..."

/-- Information shown after a checkout session was created. -/
def smsSentMessage : String :=
  "SMS sent to customer. Waiting for payment confirmation..."

/-! ## Methods of the terminal -/

/-- Method `handleTamaraStatusResponse(line, notification)`. -/
def handleTamaraStatusResponse (t : Terminal) (line : PaymentLine) (n : Notification) :
    Terminal × PaymentLine :=
  let isSuccess : Bool := n.status == "approved"
  let (t1, line1) :=
    if isSuccess then
      let l1 := { line with transaction_id := jsOr n.transaction_id n.order_id }
      let l2 := l1.set_payment_status "done"
      (t._show_info (.str approvedMessage), l2)
    else
      let errorMsg := _get_error_message n.status
      let t1 := t._show_error errorMsg
      (t1, line.set_payment_status "retry")
  match t1.resolver line1.uuid with
  | some resolver => ((t1.deleteResolver line1.uuid).callResolve resolver isSuccess, line1)
  | none =>
      ({ t1 with hostResponses := t1.hostResponses ++ [(line1.uuid, isSuccess)] }, line1)

/-- Method `_handle_odoo_connection_failure(line)`. -/
def _handle_odoo_connection_failure (t : Terminal) (line : PaymentLine) :
    Terminal × PaymentLine :=
  let line1 := if !line.is_done then line.set_payment_status "retry" else line
  (t._show_error (.str connectionMessage), line1)

/-- Polling period of `waitForPaymentConfirmation`. -/
def pollIntervalMs : Nat := 5000

/-- Deadline of `waitForPaymentConfirmation`. -/
def timeoutMs : Nat := 300000

/-- Synchronous body of `waitForPaymentConfirmation(line)`, called at time
`now` on the line with reference `ref`: stores the resolver and starts the
two timers.  The result is the wait created, whose promise is returned. -/
def waitForPaymentConfirmation (t : Terminal) (now ref : Nat) (line : PaymentLine) :
    Terminal × Nat :=
  let k := t.waits.length
  let t1 := t.setResolver line.uuid k
  ({ t1 with waits := t1.waits ++
      [{ line := ref, pollActive := true, pollDue := now + pollIntervalMs,
         deadlineDue := now + timeoutMs, deadlinePending := true }] }, k)

/-- The statuses on which a poll tick resolves. -/
def terminalStatuses : List String :=
  ["approved", "declined", "expired", "failed", "canceled"]

/-- First half of the interval callback of wait `k`, up to the `await`: the
guard on the registration, then the poll request.  The boolean tells
whether the request was sent.  A wait is only started on a line whose
`uiState` exists, so reading `line.uiState.tamaraOrderId` does not throw. -/
def pollTickBegin (t : Terminal) (k : Nat) (line : PaymentLine) : Terminal × Bool :=
  match t.resolver line.uuid with
  | none => (t.clearInterval k, false)
  | some _ => ({ t with requests := t.requests ++ [Request.poll line.tamaraOrderId] }, true)

/-- Second half of the interval callback, from the return of the `await`. -/
def pollTickEnd (t : Terminal) (line : PaymentLine) (reply : PollReply) :
    Terminal × PaymentLine :=
  match reply with
  | .throws => (t, line)
  | .falsy => (t, line)
  | .resp r =>
      if terminalStatuses.contains r.status then handleTamaraStatusResponse t line r
      else (t, line)

/-- Interval callback of wait `k` when nothing else runs while the request
is in flight. -/
def pollTick (t : Terminal) (k : Nat) (line : PaymentLine) (reply : PollReply) :
    Terminal × PaymentLine :=
  let (t1, sent) := pollTickBegin t k line
  if sent then pollTickEnd t1 line reply else (t1, line)

/-- Callback of the `setTimeout` of wait `k`. -/
def deadlineCallback (t : Terminal) (k : Nat) (line : PaymentLine) :
    Terminal × PaymentLine :=
  let t1 := t.clearInterval k
  match t1.resolver line.uuid with
  | some _ =>
      let t2 := t1.deleteResolver line.uuid
      let t3 := t2._show_error (.str timeoutMessage)
      (t3.callResolve k false, line.set_payment_status "retry")
  | none => (t1, line)

/-- Method `send_payment_cancel(order, uuid)`; `line` is the result of the
`find` over the payment lines of the order and `remoteThrows` tells whether
the cancel request throws.  The inherited method is the empty stub of the
payment interface. -/
def send_payment_cancel (t : Terminal) (line : Option PaymentLine) (remoteThrows : Bool) :
    Terminal :=
  match line with
  | some l =>
      if jsTruthy l.tamaraOrderId then
        let t1 := { t with requests := t.requests ++ [Request.cancel l.tamaraOrderId] }
        if remoteThrows then t1 else t1
      else t
  | none => t

/-- Result of an `async` method: a value, or the promise of a wait. -/
inductive Outcome where
  | value (b : Bool)
  | promise (k : Nat)
  deriving DecidableEq, Repr

/-- First part of `_tamara_create_checkout(line, phoneNumber)`, up to the
`await` of the checkout request. -/
def _tamara_create_checkout_begin (t : Terminal) (pos : Pos) (line : PaymentLine)
    (phoneNumber : String) : Terminal × PaymentLine :=
  let data := Request.checkout phoneNumber line.amount pos.currency
    (pos.order_uuid ++ "--" ++ toString pos.session_id)
  ({ t with requests := t.requests ++ [data] }, line.set_payment_status "waitingCard")

/-- Second part of `_tamara_create_checkout`, from the return of the
`await`. -/
def _tamara_create_checkout_end (t : Terminal) (now ref : Nat) (line : PaymentLine)
    (reply : CheckoutReply) : Terminal × PaymentLine × Outcome :=
  match reply with
  | .throws =>
      let (t1, line1) := _handle_odoo_connection_failure t line
      (t1, line1, .value false)
  | .resp response =>
      match response.error with
      | some message =>
          let errorMsg := (jsOr message (some requestFailedMessage)).getD requestFailedMessage
          let t1 := t._show_error (.str errorMsg)
          (t1, line.set_payment_status "retry", .value false)
      | none =>
          let line1 := { line with tamaraOrderId := response.order_id }
          let t1 :=
            if response.demo_mode then t._show_info (.str demoWaitMessage)
            else t._show_info (.str smsSentMessage)
          let (t2, k) := waitForPaymentConfirmation t1 now ref line1
          (t2, line1, .promise k)

/-- Nothing runs while a request is awaited: the terminal and the line are
at the return of the `await` what they were before it. -/
def undisturbed (t : Terminal) (line : PaymentLine) : Terminal × PaymentLine :=
  (t, line)

/-- Method `_tamara_create_checkout(line, phoneNumber)`.  The method is
suspended at the `await` of the checkout request; `during` is what the other
tasks of the event loop (the notification handler, timer callbacks, other
calls of the terminal) do to the terminal and to the line until the reply
arrives. -/
def _tamara_create_checkout (t : Terminal) (pos : Pos) (now ref : Nat) (line : PaymentLine)
    (phoneNumber : String) (during : Terminal → PaymentLine → Terminal × PaymentLine)
    (reply : CheckoutReply) : Terminal × PaymentLine × Outcome :=
  let (t1, line1) := _tamara_create_checkout_begin t pos line phoneNumber
  let (t2, line2) := during t1 line1
  _tamara_create_checkout_end t2 now ref line2 reply

/-! ## The point of sale around the terminal -/

/-- The runtime sets the next callback of the interval of wait `k` one
period later. -/
def Terminal.rescheduleInterval (t : Terminal) (k : Nat) : Terminal :=
  { t with waits := modifyAt (fun y => { y with pollDue := y.pollDue + pollIntervalMs }) k t.waits }

/-- The runtime runs the callback of the timeout of wait `k` once. -/
def Terminal.timeoutRan (t : Terminal) (k : Nat) : Terminal :=
  { t with waits := modifyAt (fun y => { y with deadlinePending := false }) k t.waits }

/-- The point of sale: the clock, the payment lines of the store, the
terminal, and the continuations that wait for a remote reply (waits with a
poll request in flight, lines with a checkout request in flight). -/
structure World where
  now : Nat
  pos : Pos
  lines : List PaymentLine
  term : Terminal
  pollsInFlight : List Nat
  checkoutsInFlight : List Nat
  deriving DecidableEq, Repr

/-- A point of sale with the given lines and a freshly set up terminal. -/
def World.start (pos : Pos) (lines : List PaymentLine) : World :=
  { now := 0, pos := pos, lines := lines, term := Terminal.setup,
    pollsInFlight := [], checkoutsInFlight := [] }

/-- Run a method of the terminal on the line with reference `i`. -/
def World.onLine (w : World) (i : Nat)
    (f : Terminal → PaymentLine → Terminal × PaymentLine) : World :=
  match w.lines[i]? with
  | some l =>
      let (t1, l1) := f w.term l
      { w with term := t1, lines := w.lines.set i l1 }
  | none => w

/-- The array method `find`, with the position of the element found. -/
def findFrom (p : PaymentLine → Bool) : Nat → List PaymentLine → Option (Nat × PaymentLine)
  | _, [] => none
  | i, l :: ls => if p l then some (i, l) else findFrom p (i + 1) ls

/-- Handler of the `TAMARA_LATEST_RESPONSE` channel installed by the
override of `PosStore.setup`.  The boolean tells whether the payload was
forwarded to `handleTamaraStatusResponse`. -/
def onTamaraNotification (w : World) (payload : Notification) : World × Bool :=
  if payload.config_id == w.pos.config_id then
    match findFrom (fun line => line.tamaraOrderId == payload.order_id) 0 w.lines with
    | some (i, paymentLine) =>
        if !paymentLine.is_done && paymentLine.get_payment_status != "retry" then
          let (t1, l1) := handleTamaraStatusResponse w.term paymentLine payload
          ({ w with term := t1, lines := w.lines.set i l1 }, true)
        else (w, false)
    | none => (w, false)
  else (w, false)

/-- What can happen at the point of sale. -/
inductive Event where
  | checkoutBegin (line : Nat) (phoneNumber : String)
  | checkoutEnd (line : Nat) (reply : CheckoutReply)
  | pollBegin (k : Nat)
  | pollEnd (k : Nat) (reply : PollReply)
  | deadline (k : Nat)
  | notify (payload : Notification)
  | cancel (uuid : String) (remoteThrows : Bool)
  deriving DecidableEq, Repr

/-- A timer callback of wait `x` is overdue at time `t`. -/
def Wait.overdue (x : Wait) (t : Nat) : Bool :=
  (x.pollActive && x.pollDue < t) || (x.deadlinePending && x.deadlineDue < t)

/-- One event at time `at_`.  The result is `none` when the schedule is not
one of the runtime: the clock goes backwards, a timer callback was skipped,
a timer callback runs at another time than the one it was set for, or a
continuation resumes that was never suspended. -/
def step (w : World) (at_ : Nat) (e : Event) : Option World :=
  if w.now ≤ at_ ∧ w.term.waits.all (fun x => !x.overdue at_) then
    let w := { w with now := at_ }
    match e with
    | .checkoutBegin i phoneNumber =>
        match w.lines[i]? with
        | some _ =>
            let w1 := w.onLine i (fun t l => _tamara_create_checkout_begin t w.pos l phoneNumber)
            some { w1 with checkoutsInFlight := i :: w.checkoutsInFlight }
        | none => none
    | .checkoutEnd i reply =>
        if i ∈ w.checkoutsInFlight then
          let w1 := w.onLine i (fun t l =>
            ((_tamara_create_checkout_end t at_ i l reply).1,
             (_tamara_create_checkout_end t at_ i l reply).2.1))
          some { w1 with checkoutsInFlight := w.checkoutsInFlight.erase i }
        else none
    | .pollBegin k =>
        match w.term.waits[k]? with
        | some x =>
            if x.pollActive ∧ x.pollDue = at_ then
              match w.lines[x.line]? with
              | some l =>
                  let r := pollTickBegin (w.term.rescheduleInterval k) k l
                  let inFlight := if r.2 then k :: w.pollsInFlight else w.pollsInFlight
                  some { w with term := r.1, pollsInFlight := inFlight }
              | none => none
            else none
        | none => none
    | .pollEnd k reply =>
        match w.term.waits[k]? with
        | some x =>
            if k ∈ w.pollsInFlight then
              let w1 := w.onLine x.line (fun t l => pollTickEnd t l reply)
              some { w1 with pollsInFlight := w.pollsInFlight.erase k }
            else none
        | none => none
    | .deadline k =>
        match w.term.waits[k]? with
        | some x =>
            if x.deadlinePending ∧ x.deadlineDue = at_ then
              let w0 := { w with term := w.term.timeoutRan k }
              some (w0.onLine x.line (fun t l => deadlineCallback t k l))
            else none
        | none => none
    | .notify payload => some (onTamaraNotification w payload).1
    | .cancel uuid remoteThrows =>
        let line := w.lines.find? (fun pl => pl.uuid == uuid)
        some { w with term := send_payment_cancel w.term line remoteThrows }
  else none

/-- A schedule: timed events in the order in which they run. -/
def run (w : World) : List (Nat × Event) → Option World
  | [] => some w
  | (at_, e) :: es =>
      match step w at_ e with
      | some w1 => run w1 es
      | none => none

/-- The dialog that `handleTamaraStatusResponse` adds for a payload. -/
def statusDialog (n : Notification) : Dialog :=
  if n.status = "approved" then { title := infoTitle, body := .str approvedMessage }
  else { title := errorTitle, body := _get_error_message n.status }

/-- The line after `handleTamaraStatusResponse` applied a payload to it. -/
def statusLine (line : PaymentLine) (n : Notification) : PaymentLine :=
  if n.status = "approved" then
    { line with transaction_id := jsOr n.transaction_id n.order_id, payment_status := "done" }
  else { line with payment_status := "retry" }

/-- The terminal after `handleTamaraStatusResponse` resolved the wait `r`
registered for the line. -/
def Terminal.afterResolve (t : Terminal) (line : PaymentLine) (n : Notification) (r : Nat) :
    Terminal :=
  { t with
    dialogs := t.dialogs ++ [statusDialog n]
    paymentLineResolvers := t.paymentLineResolvers.filter (fun e => e.1 != line.uuid)
    resolveCalls := t.resolveCalls ++ [(r, n.status == "approved")] }

/-- The terminal after `handleTamaraStatusResponse` found no registration
for the line. -/
def Terminal.afterReport (t : Terminal) (line : PaymentLine) (n : Notification) : Terminal :=
  { t with
    dialogs := t.dialogs ++ [statusDialog n]
    hostResponses := t.hostResponses ++ [(line.uuid, n.status == "approved")] }

/-! ## Scenario data -/

/-- Point of sale of the scenarios. -/
def shop : Pos :=
  { config_id := 7, payment_method_id := 3, currency := "SAR", order_uuid := "O1",
    session_id := 12 }

/-- Fresh Tamara line of 100 of the scenarios. -/
def freshLine : PaymentLine :=
  { uuid := "L1", amount := 100, payment_status := "", transaction_id := none,
    tamaraOrderId := none }

/-- Checkout response that creates the session `X`. -/
def sessionX : CheckoutReply :=
  .resp { error := none, order_id := some "X", demo_mode := false }

/-- The cashier starts a payment on the line and the session `X` is created
at once: the wait is registered at time 0. -/
def openWait : List (Nat × Event) :=
  [(0, .checkoutBegin 0 "+966501234567"), (0, .checkoutEnd 0 sessionX)]

/-- Push notification of the approval of the session `X` with the
transaction id `T1`. -/
def approvalT1 : Notification :=
  { config_id := 7, order_id := some "X", status := "approved", transaction_id := some "T1" }

/-- Payload of an approval of the session `X` without a transaction id. -/
def approvalBare : Notification :=
  { config_id := 7, order_id := some "X", status := "approved", transaction_id := none }

/-- The first tick sends its poll request at 5000 and, while the request is
in flight, the push notification of the approval arrives. -/
def notifiedDuringPoll : List (Nat × Event) :=
  openWait ++
  [(5000, .pollBegin 0),
   (5100, .notify approvalT1)]

/-- Poll response that reports the approval without a transaction id. -/
def lateApproval : PollReply := .resp approvalBare

/-- Poll response that reports a status which is not terminal. -/
def pendingReply : PollReply :=
  .resp { config_id := 7, order_id := some "X", status := "new", transaction_id := none }

/-- Poll response that reports that the customer declined. -/
def declinedReply : PollReply :=
  .resp { config_id := 7, order_id := some "X", status := "declined", transaction_id := none }

/-- Checkout response that creates the session `Y`. -/
def sessionY : CheckoutReply :=
  .resp { error := none, order_id := some "Y", demo_mode := false }

/-- The ticks of wait `k` at `start`, `start + 5000`, ... (`n` of them), each
answered after 100 ms by a status that is not terminal. -/
def quietTicks (k start : Nat) : Nat → List (Nat × Event)
  | 0 => []
  | n + 1 =>
      (start, .pollBegin k) :: (start + 100, .pollEnd k pendingReply) ::
        quietTicks k (start + 5000) n

/-- A declined payment that the cashier tries again on the same line: the
first wait is registered at 0, the first tick learns at 5100 that the
customer declined, the second tick stops the poll timer at 10000; at 21000
the cashier sends the payment again and the second wait is registered; its
ticks from 26000 to 296000 report nothing terminal. -/
def retriedPayment : List (Nat × Event) :=
  openWait ++
  [(5000, .pollBegin 0), (5100, .pollEnd 0 declinedReply), (10000, .pollBegin 0),
   (21000, .checkoutBegin 0 "+966501234567"), (21000, .checkoutEnd 0 sessionY)] ++
  quietTicks 1 26000 55

/-- The line of the scenarios once the session `X` exists. -/
def waitingLine : PaymentLine :=
  { uuid := "L1", amount := 100, payment_status := "waitingCard", transaction_id := none,
    tamaraOrderId := some "X" }

/-- The terminal right after `waitForPaymentConfirmation(waitingLine)` at
time 0. -/
def waitingTerminal : Terminal :=
  (waitForPaymentConfirmation Terminal.setup 0 0 waitingLine).1

/-- Push notification for this point of sale that carries no `order_id`. -/
def orphanEvent : Notification :=
  { config_id := 7, order_id := none, status := "approved", transaction_id := none }

/-- Poll response that reports the approval and carries neither a
transaction id nor an order id. -/
def anonymousApproval : PollReply :=
  .resp { config_id := 7, order_id := none, status := "approved", transaction_id := none }

/-- The text shown for a business error of the checkout whose `message`
field is the given value. -/
def shownError (message : Option String) : String :=
  match message with
  | some m => if m = "" then requestFailedMessage else m
  | none => requestFailedMessage

/-! ## Prompts, validation and the refund path -/

/-- The characters of the class `\s` of a regular expression, which are also
the ones that `trim()` removes: the white space and line terminator code
points of the language. -/
def jsWhitespace (c : Char) : Bool :=
  let n := c.toNat
  n == 0x09 || n == 0x0A || n == 0x0B || n == 0x0C || n == 0x0D || n == 0x20 ||
  n == 0xA0 || n == 0x1680 || (0x2000 ≤ n && n ≤ 0x200A) || n == 0x2028 ||
  n == 0x2029 || n == 0x202F || n == 0x205F || n == 0x3000 || n == 0xFEFF

/-- The call `phone.replace(/[\s-]/g, '')`: every character of the class is
removed. -/
def removeSpacesAndHyphens (phone : String) : String :=
  String.mk (phone.toList.filter (fun c => !(jsWhitespace c || c == '-')))

/-- The character class `[0-9]`. -/
def inZeroToNine (c : Char) : Bool :=
  decide ('0' ≤ c) && decide (c ≤ '9')

/-- The test `/^\+?[0-9]{10,15}$/.test(cleaned)`: from the start an optional
`+`, then between 10 and 15 characters of `[0-9]`, then the end. -/
def phonePattern (cleaned : String) : Bool :=
  let afterPlus :=
    match cleaned.toList with
    | '+' :: rest => rest
    | cs => cs
  afterPlus.all inZeroToNine && decide (10 ≤ afterPlus.length) &&
    decide (afterPlus.length ≤ 15)

/-- The method `trim()` of a string. -/
def jsTrim (s : String) : String :=
  String.mk ((s.toList.dropWhile jsWhitespace).reverse.dropWhile jsWhitespace).reverse

/-- Error shown by `_ask_phone_number` for a malformed number. -/
def invalidPhoneMessage : String :=
  "Invalid phone number format. Please include country code."

/-- Method `_ask_phone_number()`; `prompted` is what `prompt` returns, `none`
when the cashier cancels. -/
def _ask_phone_number (t : Terminal) (prompted : Option String) : Terminal × Option String :=
  match prompted with
  | none => (t, none)
  | some phone =>
      if phone = "" then (t, none)
      else
        let cleaned := removeSpacesAndHyphens phone
        if !phonePattern cleaned then (t._show_error (.str invalidPhoneMessage), none)
        else (t, some cleaned)

/-- Method `_ask_tamara_order_id()`; `prompted` is what `prompt` returns. -/
def _ask_tamara_order_id (prompted : Option String) : Option String :=
  match prompted with
  | none => none
  | some orderId => if orderId = "" then none else some (jsTrim orderId)

/-- Response object of `proxy_tamara_refund`.  `error = none` is an absent
`error` field, `error = some m` an error object whose `message` is `m`. -/
structure RefundResponse where
  error : Option (Option String)
  refund_id : Option String
  demo_mode : Bool
  deriving DecidableEq, Repr

/-- Outcome of the `proxy_tamara_refund` request: the call throws (this
covers a null response), or it returns an object. -/
inductive RefundReply where
  | throws
  | resp (r : RefundResponse)
  deriving DecidableEq, Repr

/-- Information shown after a refund in demo mode. -/
def demoRefundMessage : String := "🎭 DEMO MODE: Refund approved successfully!"

/-- The term `_t('Refund processed successfully! ID: %s', response.refund_id)`:
the placeholder ends the term, and an absent id is printed as `undefined`. -/
def refundDoneMessage (refund_id : Option String) : String :=
  "Refund processed successfully! ID: " ++ refund_id.getD "undefined"

/-- Method `_tamara_process_refund(line)`; `prompted` is what the prompt for
the order id returns and `reply` the outcome of the refund request. -/
def _tamara_process_refund (t : Terminal) (pos : Pos) (line : PaymentLine)
    (prompted : Option String) (reply : RefundReply) : Terminal × PaymentLine × Bool :=
  match _ask_tamara_order_id prompted with
  | none => (t, line.set_payment_status "retry", false)
  | some orderId =>
      if orderId = "" then (t, line.set_payment_status "retry", false)
      else
        let data := Request.refund orderId (Int.natAbs line.amount) pos.currency "POS Refund"
        let t1 := { t with requests := t.requests ++ [data] }
        match reply with
        | .throws =>
            let (t2, line2) := _handle_odoo_connection_failure t1 line
            (t2, line2, false)
        | .resp response =>
            match response.error with
            | some message =>
                let t2 := t1._show_error (JsVal.ofOption message)
                (t2, line.set_payment_status "retry", false)
            | none =>
                let t2 :=
                  if response.demo_mode then t1._show_info (.str demoRefundMessage)
                  else t1._show_info (.str (refundDoneMessage response.refund_id))
                let line1 := { line with transaction_id := jsOr response.refund_id (some orderId) }
                (t2, line1.set_payment_status "done", true)

/-- Method `send_payment_request(uuid)` in a run where the reply of the
request arrives before any other task runs; `line` is the result of the
`find` over the payment lines of the order, `prompted` what the prompt of
the path taken returns, and the two replies the outcome of the request of
the path taken.  The inherited method is the empty stub of the payment
interface. -/
def send_payment_request (t : Terminal) (pos : Pos) (now ref : Nat)
    (line : Option PaymentLine) (prompted : Option String) (checkoutReply : CheckoutReply)
    (refundReply : RefundReply) : Terminal × Option PaymentLine × Outcome :=
  match line with
  | none => (t, none, .value false)
  | some line =>
      if line.amount < 0 then
        let r := _tamara_process_refund t pos line prompted refundReply
        (r.1, some r.2.1, .value r.2.2)
      else
        let (t1, phoneNumber) := _ask_phone_number t prompted
        if !jsTruthy phoneNumber then (t1, some (line.set_payment_status "retry"), .value false)
        else
          let r := _tamara_create_checkout t1 pos now ref line (phoneNumber.getD "")
            undisturbed checkoutReply
          (r.1, some r.2.1, r.2.2)

/-- The condition of the spec on the text prompted for the phone number:
what is left after removing every white space character and every hyphen is
an optional leading `+` followed by 10 to 15 decimal digits. -/
def specPhoneAccepted (text : String) : Prop :=
  let kept := text.toList.filter (fun c => !jsWhitespace c && c != '-')
  let digits := if kept.head? = some '+' then kept.tail else kept
  (∀ c ∈ digits, c.isDigit = true) ∧ 10 ≤ digits.length ∧ digits.length ≤ 15

/-- The text that the spec has sent as `phone_number`: the prompted text
without its white space characters and hyphens. -/
def specCleanedPhone (text : String) : String :=
  String.mk (text.toList.filter (fun c => !jsWhitespace c && c != '-'))

/-- The condition of the spec on the text prompted for the order id of a
refund: it is not empty after trimming, that is, it has a character that is
not white space. -/
def specOrderIdAccepted (text : String) : Prop :=
  ∃ c ∈ text.toList, jsWhitespace c = false

instance specPhoneAcceptedDecidable (text : String) : Decidable (specPhoneAccepted text) := by
  unfold specPhoneAccepted
  exact inferInstance

instance specOrderIdAcceptedDecidable (text : String) :
    Decidable (specOrderIdAccepted text) := by
  unfold specOrderIdAccepted
  exact inferInstance

/-- A refund line of 50 that the host has put in `waiting`. -/
def refundLine : PaymentLine :=
  { uuid := "L2", amount := -50, payment_status := "waiting", transaction_id := none,
    tamaraOrderId := none }

/-- Refund response that carries the refund id `R1`. -/
def refundR1 : RefundReply :=
  .resp { error := none, refund_id := some "R1", demo_mode := false }

/-- The terminal after one more remote call. -/
def Terminal.withRequest (t : Terminal) (r : Request) : Terminal :=
  { t with requests := t.requests ++ [r] }

/-- The refund request that `_tamara_process_refund` sends for a line and an
order id. -/
def refundRequest (pos : Pos) (line : PaymentLine) (orderId : String) : Request :=
  Request.refund orderId (Int.natAbs line.amount) pos.currency "POS Refund"

/-- A declined payment that the cashier sends again on the same line, which
still holds the order id `X`: while the second checkout request is in
flight, the push notification of the approval of `X` arrives, and then the
request throws. -/
def approvedDuringFailedRetry : List (Nat × Event) :=
  openWait ++
  [(5000, .pollBegin 0), (5100, .pollEnd 0 declinedReply), (10000, .pollBegin 0),
   (21000, .checkoutBegin 0 "+966501234567"), (21500, .notify approvalT1),
   (22000, .checkoutEnd 0 .throws)]

/-- Push notification that the customer declined the session `X`. -/
def declinedEvent : Notification :=
  { config_id := 7, order_id := some "X", status := "declined", transaction_id := none }

/-- The first tick sends its poll request for the session `X` at 5000; the
push notification of the decline resolves the wait at 5100; at 6000 the
cashier sends the payment again and the session `Y` gets its own wait. -/
def retriedDuringPoll : List (Nat × Event) :=
  openWait ++
  [(5000, .pollBegin 0), (5100, .notify declinedEvent),
   (6000, .checkoutBegin 0 "+966501234567"), (6000, .checkoutEnd 0 sessionY)]

/-! # Properties -/

/-! ## Lemmas on the registration table -/

theorem lookup_filter_ne (u : String) (l : List (String × Nat)) :
    (l.filter (fun e => e.1 != u)).lookup u = none := by
  induction l with
  | nil => rfl
  | cons e es ih =>
      by_cases h : e.1 = u
      · simp [List.filter, h, ih]
      · have h1 : (e.1 != u) = true := by simpa using h
        have h2 : (u == e.1) = false := by
          simp only [beq_eq_false_iff_ne, ne_eq]
          exact fun h3 => h h3.symm
        obtain ⟨a, b⟩ := e
        simp only [List.filter, h1, List.lookup, ih]
        simp only at h2
        simp [h2]

theorem resolver_deleteResolver (t : Terminal) (u : String) :
    (t.deleteResolver u).resolver u = none := by
  simp [Terminal.deleteResolver, Terminal.resolver, lookup_filter_ne]

/-- The two branches of `handleTamaraStatusResponse` share their shape: one
dialog, one update of the line, then the lookup of the registration. -/
theorem handle_eq (t : Terminal) (line : PaymentLine) (n : Notification) :
    handleTamaraStatusResponse t line n =
      (match t.resolver line.uuid with
       | some r => (t.afterResolve line n r, statusLine line n)
       | none => (t.afterReport line n, statusLine line n)) := by
  unfold handleTamaraStatusResponse statusLine Terminal.afterResolve Terminal.afterReport
    statusDialog
  by_cases hs : n.status = "approved"
  · simp only [hs, beq_self_eq_true, if_true, Terminal._show_info, Terminal.resolver,
      PaymentLine.set_payment_status, Terminal.callResolve, Terminal.deleteResolver]
  · have hs1 : (n.status == "approved") = false := by simpa using hs
    simp only [hs, hs1, Bool.false_eq_true, if_false, Terminal._show_error, Terminal.resolver,
      PaymentLine.set_payment_status, Terminal.callResolve, Terminal.deleteResolver]

theorem statusLine_uuid (line : PaymentLine) (n : Notification) :
    (statusLine line n).uuid = line.uuid := by
  unfold statusLine; split <;> rfl


/-- C1, at the failing input: the first tick has its poll request in flight
when the push notification of the approval resolves the wait.  The tick
checks the registration only before its `await`, so the poll response that
returns afterwards is handed to `handleTamaraStatusResponse` although the
uuid has no registration any more: the transaction id `T1` is replaced by
`X`, a second message is shown and the approval is reported to the line a
second time. -/
theorem C1_late_poll_response_reapplied :
    ∃ w1 w2 : World,
      run (World.start shop [freshLine]) notifiedDuringPoll = some w1 ∧
      step w1 5200 (.pollEnd 0 lateApproval) = some w2 ∧
      w1.term.resolver "L1" = none ∧
      w1.term.resolveCalls = [(0, true)] ∧
      w1.lines.map (fun l => (l.payment_status, l.transaction_id)) = [("done", some "T1")] ∧
      w2.lines.map (fun l => (l.payment_status, l.transaction_id)) = [("done", some "X")] ∧
      w1.term.dialogs.length = 2 ∧
      w2.term.dialogs.length = 3 ∧
      w2.term.hostResponses = [("L1", true)] := by
  refine ⟨_, _, rfl, rfl, ?_⟩
  decide

/-- The same missing check, seen from the next wait: the poll request of the
session `X` is in flight when the decline resolves the first wait and the
cashier sends the payment again; the stale response for `X` then finds the
registration of the wait of the session `Y` and resolves it. -/
theorem stale_poll_reply_resolves_next_wait :
    ∃ w1 w2 : World,
      run (World.start shop [freshLine]) retriedDuringPoll = some w1 ∧
      step w1 6500 (.pollEnd 0 declinedReply) = some w2 ∧
      w1.term.resolver "L1" = some 1 ∧
      w1.term.resolveCalls = [(0, false)] ∧
      w1.lines.map (fun l => (l.payment_status, l.tamaraOrderId)) =
        [("waitingCard", some "Y")] ∧
      w2.term.resolver "L1" = none ∧
      w2.term.resolveCalls = [(0, false), (1, false)] ∧
      w2.lines.map (fun l => (l.payment_status, l.tamaraOrderId)) = [("retry", some "Y")] := by
  refine ⟨_, _, rfl, rfl, ?_⟩
  decide

/-- Whatever the payload, `handleTamaraStatusResponse` leaves the line in
`done` or in `retry`. -/
theorem handled_line_is_final (t : Terminal) (line : PaymentLine) (n : Notification) :
    (handleTamaraStatusResponse t line n).2.payment_status = "done" ∨
    (handleTamaraStatusResponse t line n).2.payment_status = "retry" := by
  have e : (handleTamaraStatusResponse t line n).2 = statusLine line n := by
    rw [handle_eq]; split <;> rfl
  rw [e]
  unfold statusLine
  by_cases hs : n.status = "approved"
  · left; simp [hs]
  · right; simp [hs]

/-- The other order of the two deliveries is a no-op: a push notification
whose order id is matched with a line that is already `done` or in `retry`
(after a poll tick, a notification or the deadline resolved it) is dropped
by the router and changes nothing. -/
theorem notification_after_resolution_is_noop (w : World) (payload : Notification) (i : Nat)
    (l : PaymentLine)
    (hfind : findFrom (fun line => line.tamaraOrderId == payload.order_id) 0 w.lines =
      some (i, l))
    (hfinal : l.payment_status = "done" ∨ l.payment_status = "retry") :
    onTamaraNotification w payload = (w, false) := by
  unfold onTamaraNotification
  have hdead : (!l.is_done && l.get_payment_status != "retry") = false := by
    rcases hfinal with hd | hr
    · simp [PaymentLine.is_done, hd]
    · simp [PaymentLine.get_payment_status, hr]
  by_cases hc : (payload.config_id == w.pos.config_id) = true
  · simp only [hc, if_true, hfind, hdead, Bool.false_eq_true, if_false]
  · simp only [hc, Bool.false_eq_true, if_false]

/-- A tick that starts after the resolution is a no-op too: it finds no
registration, sends no request and only stops its own interval. -/
theorem tick_after_resolution_sends_nothing (t : Terminal) (k : Nat) (line : PaymentLine)
    (reply : PollReply) (h : t.resolver line.uuid = none) :
    pollTick t k line reply = (t.clearInterval k, line) := by
  unfold pollTick pollTickBegin
  rw [h]
  rfl

/-- C2, at the failing input: a payment declined at 5100 is sent again on
the same line at 21000, so the second wait is registered at 21000 and its
deadline is 321000.  No terminal status is delivered during the second
wait.  At 300000 the deadline callback of the first wait runs, finds the
registration of the second wait under the uuid, removes it, sets the line to
`retry` with the timeout message and calls the resolver of the first wait:
the second wait is timed out 279000 ms after its registration and its
promise stays pending, also after its own tick and deadline have run. -/
theorem C2_earlier_deadline_times_out_later_wait :
    ∃ w0 w1 w2 : World,
      run (World.start shop [waitingLine]) retriedPayment = some w0 ∧
      step w0 300000 (.deadline 0) = some w1 ∧
      run w1 [(301000, .pollBegin 1), (321000, .deadline 1)] = some w2 ∧
      w0.term.resolver "L1" = some 1 ∧
      w0.lines.map (fun l => l.payment_status) = ["waitingCard"] ∧
      w0.term.waits[1]? = some { line := 0, pollActive := true, pollDue := 301000,
                                 deadlineDue := 21000 + timeoutMs, deadlinePending := true } ∧
      w1.now = 300000 ∧
      w1.term.resolver "L1" = none ∧
      w1.lines.map (fun l => l.payment_status) = ["retry"] ∧
      w1.term.dialogs.getLast? = some { title := errorTitle, body := .str timeoutMessage } ∧
      w1.term.resolveCalls = [(0, false), (0, false)] ∧
      w1.term.promiseValue 1 = none ∧
      w2.now = 321000 ∧
      w2.term.promiseValue 1 = none ∧
      w2.term.waits.all (fun x => !x.pollActive && !x.deadlinePending) = true := by
  refine ⟨_, _, _, rfl, rfl, rfl, ?_⟩
  decide

/-- The element at the position that `modifyAt` changes. -/
theorem modifyAt_getElem? {α : Type} (f : α → α) (k : Nat) (l : List α) :
    (modifyAt f k l)[k]? = l[k]?.map f := by
  induction l generalizing k with
  | nil => simp [modifyAt]
  | cons a as ih =>
      cases k with
      | zero => simp [modifyAt]
      | succ k => simpa [modifyAt] using ih k

/-- The elements at the other positions are left as they were. -/
theorem modifyAt_getElem?_ne {α : Type} (f : α → α) (k j : Nat) (l : List α) (h : j ≠ k) :
    (modifyAt f k l)[j]? = l[j]? := by
  induction l generalizing k j with
  | nil => simp [modifyAt]
  | cons a as ih =>
      cases k with
      | zero =>
          cases j with
          | zero => exact absurd rfl h
          | succ j => simp [modifyAt]
      | succ k =>
          cases j with
          | zero => simp [modifyAt]
          | succ j =>
              have hjk : j ≠ k := fun e => h (by rw [e])
              simpa [modifyAt] using ih k j hjk

/-- C3, as stated, fails: right after the push notification of the approval
resolved the wait, the uuid has no registration while the poll timer of the
wait is still active and its deadline timer is still pending. -/
theorem C3_timers_outlive_registration :
    ∃ w : World,
      run (World.start shop [freshLine]) (openWait ++ [(2000, .notify approvalT1)]) = some w ∧
      w.term.resolver "L1" = none ∧
      w.term.resolveCalls = [(0, true)] ∧
      w.term.waits = [{ line := 0, pollActive := true, pollDue := 5000,
                        deadlineDue := 300000, deadlinePending := true }] := by
  refine ⟨_, rfl, ?_⟩
  decide

/-- C3, amended: when a terminal status resolves a live wait,
`handleTamaraStatusResponse` removes the registration and calls the
resolver, and cancels neither timer: every wait is as it was.  The poll
timer of a wait is cancelled only by a callback of that wait.  In whatever
state it runs, a tick that finds no registration under the uuid calls
`clearInterval`, after which the interval of the wait is inactive, and sends
no request; and the deadline callback starts with `clearInterval`, so after
it the interval of the wait is inactive in every case.  The deadline timer is
never cancelled: `clearInterval` leaves it pending and touches no other
wait, and the deadline callback that runs while the uuid has no registration
does nothing but that `clearInterval`. -/
theorem C3_resolution_leaves_timers (t : Terminal) (line : PaymentLine) (n : Notification)
    (r : Nat) (h : t.resolver line.uuid = some r) :
    let s := handleTamaraStatusResponse t line n
    (s.1.resolver line.uuid = none ∧
     s.1.resolveCalls = t.resolveCalls ++ [(r, n.status == "approved")] ∧
     s.1.waits = t.waits) ∧
    (∀ (u : Terminal) (l : PaymentLine) (k : Nat), u.resolver l.uuid = none →
      pollTickBegin u k l = (u.clearInterval k, false) ∧
      (∀ reply, pollTick u k l reply = (u.clearInterval k, l)) ∧
      deadlineCallback u k l = (u.clearInterval k, l)) ∧
    (∀ (u : Terminal) (k : Nat),
      (u.clearInterval k).waits[k]?.map (fun x => x.pollActive) =
        u.waits[k]?.map (fun _ => false) ∧
      (u.clearInterval k).waits[k]?.map (fun x => x.deadlinePending) =
        u.waits[k]?.map (fun x => x.deadlinePending) ∧
      (∀ j, j ≠ k → (u.clearInterval k).waits[j]? = u.waits[j]?) ∧
      (u.clearInterval k).requests = u.requests ∧
      (u.clearInterval k).paymentLineResolvers = u.paymentLineResolvers) ∧
    (∀ (u : Terminal) (l : PaymentLine) (k : Nat),
      (deadlineCallback u k l).1.waits[k]?.map (fun x => x.pollActive) =
        u.waits[k]?.map (fun _ => false)) := by
  intro s
  have e : s = (t.afterResolve line n r, statusLine line n) := by
    show handleTamaraStatusResponse t line n = _
    rw [handle_eq, h]
  have hclear : ∀ (u : Terminal) (k : Nat),
      (u.clearInterval k).waits[k]?.map (fun x => x.pollActive) =
        u.waits[k]?.map (fun _ => false) := by
    intro u k
    unfold Terminal.clearInterval
    simp only [modifyAt_getElem?, Option.map_map]
    rfl
  refine ⟨⟨?_, ?_, ?_⟩, ?_, ?_, ?_⟩
  · rw [e]; exact lookup_filter_ne line.uuid t.paymentLineResolvers
  · rw [e]; rfl
  · rw [e]; rfl
  · intro u l k hu
    have hb : pollTickBegin u k l = (u.clearInterval k, false) := by
      unfold pollTickBegin
      rw [hu]
    refine ⟨hb, ?_, ?_⟩
    · intro reply
      unfold pollTick
      rw [hb]
      rfl
    · unfold deadlineCallback
      have hc : (u.clearInterval k).resolver l.uuid = none := hu
      simp only [hc]
  · intro u k
    refine ⟨hclear u k, ?_, ?_, rfl, rfl⟩
    · unfold Terminal.clearInterval
      simp only [modifyAt_getElem?, Option.map_map]
      rfl
    · intro j hj
      unfold Terminal.clearInterval
      exact modifyAt_getElem?_ne _ k j u.waits hj
  · intro u l k
    have hw : (deadlineCallback u k l).1.waits = (u.clearInterval k).waits := by
      unfold deadlineCallback
      cases hr : (u.clearInterval k).resolver l.uuid with
      | none => simp only [hr]
      | some r1 => simp only [hr]; rfl
    rw [hw]
    exact hclear u k

/-- Witness of `C3_resolution_leaves_timers`: the wait of the scenario,
resolved by the approval; the next tick of the wait then stops its
interval. -/
theorem C3_resolution_leaves_timers_witness :
    waitingTerminal.resolver waitingLine.uuid = some 0 ∧
    (handleTamaraStatusResponse waitingTerminal waitingLine approvalT1).1.waits =
      waitingTerminal.waits ∧
    ((handleTamaraStatusResponse waitingTerminal waitingLine approvalT1).1.clearInterval
      0).waits[0]?.map (fun x => x.pollActive) =
      (handleTamaraStatusResponse waitingTerminal waitingLine
        approvalT1).1.waits[0]?.map (fun _ => false) :=
  ⟨by decide,
   (C3_resolution_leaves_timers waitingTerminal waitingLine approvalT1 0 (by decide)).1.2.2,
   ((C3_resolution_leaves_timers waitingTerminal waitingLine approvalT1 0
      (by decide)).2.2.1 _ 0).1⟩

/-- C4: `handleTamaraStatusResponse` is a total function of the status, and
on a line with a live registration it yields success (line `done`, resolver
called with `true`) exactly when the status is `approved`, and retry (line
`retry`, resolver called with `false`) for every other status. -/
theorem C4_only_approved_succeeds (t : Terminal) (line : PaymentLine) (n : Notification)
    (r : Nat) (h : t.resolver line.uuid = some r) :
    let s := handleTamaraStatusResponse t line n
    (n.status = "approved" →
      s.2.payment_status = "done" ∧ s.1.resolveCalls = t.resolveCalls ++ [(r, true)]) ∧
    (n.status ≠ "approved" →
      s.2.payment_status = "retry" ∧ s.1.resolveCalls = t.resolveCalls ++ [(r, false)]) ∧
    (s.2.payment_status = "done" ↔ n.status = "approved") ∧
    (s.1.resolveCalls = t.resolveCalls ++ [(r, true)] ↔ n.status = "approved") := by
  intro s
  have e : s = (t.afterResolve line n r, statusLine line n) := by
    show handleTamaraStatusResponse t line n = _
    rw [handle_eq, h]
  by_cases hs : n.status = "approved"
  · have h1 : s.2.payment_status = "done" := by
      rw [e]; simp [statusLine, hs]
    have h2 : s.1.resolveCalls = t.resolveCalls ++ [(r, true)] := by
      rw [e]; simp [Terminal.afterResolve, hs]
    exact ⟨fun _ => ⟨h1, h2⟩, fun hn => absurd hs hn, ⟨fun _ => hs, fun _ => h1⟩,
      ⟨fun _ => hs, fun _ => h2⟩⟩
  · have h1 : s.2.payment_status = "retry" := by
      rw [e]; simp [statusLine, hs]
    have h2 : s.1.resolveCalls = t.resolveCalls ++ [(r, false)] := by
      rw [e]; simp [Terminal.afterResolve, hs]
    refine ⟨fun ha => absurd ha hs, fun _ => ⟨h1, h2⟩, ⟨fun hd => ?_, fun ha => absurd ha hs⟩,
      ⟨fun hc => ?_, fun ha => absurd ha hs⟩⟩
    · rw [h1] at hd; exact absurd hd (by decide)
    · rw [h2] at hc
      have := List.append_cancel_left hc
      simp at this

/-- Witness of `C4_only_approved_succeeds`: the approval of the scenario
sets the waiting line to `done`. -/
theorem C4_only_approved_succeeds_witness :
    waitingTerminal.resolver waitingLine.uuid = some 0 ∧
    ((handleTamaraStatusResponse waitingTerminal waitingLine approvalT1).2.payment_status
        = "done" ↔ approvalT1.status = "approved") :=
  ⟨by decide,
   (C4_only_approved_succeeds waitingTerminal waitingLine approvalT1 0 (by decide)).2.2.1⟩

/-- Outside the four listed statuses and the property names of
`Object.prototype`, `_get_error_message` gives the generic message that
carries the status. -/
theorem get_error_message_generic (X : String)
    (h1 : X ∉ ["declined", "expired", "failed", "canceled"])
    (h2 : X ∉ objectPrototypeKeys) :
    _get_error_message X = .str (genericMessage X) := by
  have hl : messages.lookup X = none := by
    simp only [List.mem_cons, List.mem_singleton, not_or, List.not_mem_nil, or_false] at h1
    obtain ⟨a, b, c, d⟩ := h1
    have a1 : (X == "declined") = false := by simpa using a
    have b1 : (X == "expired") = false := by simpa using b
    have c1 : (X == "failed") = false := by simpa using c
    have d1 : (X == "canceled") = false := by simpa using d
    simp [messages, List.lookup, a1, b1, c1, d1]
  unfold _get_error_message jsGet
  rw [hl]
  simp [h2]

/-- C5, at the failing input: for the status `constructor` the lookup
`messages[status]` finds the property that the object literal inherits from
`Object.prototype`, which is truthy, so `_get_error_message` returns that
value and not the generic message; the same holds for every property name of
`Object.prototype`.  The four listed statuses have their own messages, which
are pairwise different. -/
theorem C5_inherited_property_shadows_generic_message :
    _get_error_message "constructor" = .inherited "constructor" ∧
    _get_error_message "constructor" ≠ .str (genericMessage "constructor") ∧
    (objectPrototypeKeys.all
      (fun X => _get_error_message X != .str (genericMessage X))) = true ∧
    ["declined", "expired", "failed", "canceled"].map _get_error_message =
      [.str "Payment was declined by customer or Tamara.",
       .str "Payment session expired. Please try again.",
       .str "Payment failed. Please try again.",
       .str "Payment was cancelled."] ∧
    (["declined", "expired", "failed", "canceled"].map _get_error_message).Nodup := by
  decide

/-- An event that the router does not forward leaves the point of sale as it
was. -/
theorem notification_dropped (w : World) (payload : Notification)
    (h : (onTamaraNotification w payload).2 = false) :
    (onTamaraNotification w payload).1 = w := by
  unfold onTamaraNotification at h ⊢
  split
  · split
    · split
      · rename_i h1 _ _ _ h2 h3
        simp [h1, h2, h3] at h
      · rfl
    · rfl
  · rfl

/-- C6, at the failing input: the cashier has sent a payment on the line and
the checkout request is in flight, so the line is in `waitingCard` and holds
no order id yet.  An event for this point of sale that carries no `order_id`
is matched with that line (both sides of the comparison are `undefined`) and
forwarded: the line becomes `done` although no session exists, and the
approval is reported to the line. -/
theorem C6_event_without_order_id_is_forwarded :
    ∃ w : World,
      run (World.start shop [freshLine]) [(0, .checkoutBegin 0 "+966501234567")] = some w ∧
      w.lines = [{ uuid := "L1", amount := 100, payment_status := "waitingCard",
                   transaction_id := none, tamaraOrderId := none }] ∧
      w.term.paymentLineResolvers = [] ∧
      (onTamaraNotification w orphanEvent).2 = true ∧
      (onTamaraNotification w orphanEvent).1.lines =
        [{ uuid := "L1", amount := 100, payment_status := "done",
           transaction_id := none, tamaraOrderId := none }] ∧
      (onTamaraNotification w orphanEvent).1.term.hostResponses = [("L1", true)] ∧
      (onTamaraNotification w orphanEvent).1.term.dialogs =
        [{ title := infoTitle, body := .str approvedMessage }] := by
  refine ⟨_, rfl, ?_⟩
  decide

/-- The line found by `findFrom` is the one at the position returned, and it
satisfies the predicate. -/
theorem findFrom_some (p : PaymentLine → Bool) (ls : List PaymentLine) (i j : Nat)
    (l : PaymentLine) (h : findFrom p i ls = some (j, l)) :
    i ≤ j ∧ ls[j - i]? = some l ∧ p l = true := by
  induction ls generalizing i with
  | nil => simp [findFrom] at h
  | cons a as ih =>
      unfold findFrom at h
      by_cases hp : p a = true
      · simp only [hp, if_true, Option.some.injEq, Prod.mk.injEq] at h
        obtain ⟨h1, h2⟩ := h
        subst h1 h2
        simp [hp]
      · simp only [hp, Bool.false_eq_true, if_false] at h
        obtain ⟨h1, h2, h3⟩ := ih (i + 1) h
        refine ⟨by omega, ?_, h3⟩
        have e : j - i = (j - (i + 1)) + 1 := by omega
        rw [e]
        simpa using h2

/-- C7, as stated, fails: the first tick receives a poll response that
reports the approval without a transaction id and without an order id; the
line becomes `done` and its transaction id is left undefined, while the line
stores the order id `X`. -/
theorem C7_poll_approval_without_ids :
    ∃ w : World,
      run (World.start shop [freshLine])
        (openWait ++ [(5000, .pollBegin 0), (5100, .pollEnd 0 anonymousApproval)]) = some w ∧
      w.lines = [{ uuid := "L1", amount := 100, payment_status := "done",
                   transaction_id := none, tamaraOrderId := some "X" }] ∧
      w.term.resolveCalls = [(0, true)] := by
  refine ⟨_, rfl, ?_⟩
  decide

/-- C7, amended: an approved payload applied by `handleTamaraStatusResponse`
sets the line to `done` and its transaction id to the transaction id of the
payload when that is present and not empty, and otherwise to the `order_id`
of the payload (undefined when the payload has none).  For a push
notification that the router forwards, the `order_id` of the payload is the
order id stored on the line, so there the fallback is the stored order id. -/
theorem C7_transaction_id_from_payload (t : Terminal) (line : PaymentLine) (n : Notification)
    (w : World) (h : n.status = "approved") :
    (handleTamaraStatusResponse t line n).2.payment_status = "done" ∧
    (handleTamaraStatusResponse t line n).2.transaction_id =
      jsOr n.transaction_id n.order_id ∧
    (∀ x, n.transaction_id = some x → x ≠ "" →
      (handleTamaraStatusResponse t line n).2.transaction_id = some x) ∧
    (jsTruthy n.transaction_id = false →
      (handleTamaraStatusResponse t line n).2.transaction_id = n.order_id) ∧
    ((onTamaraNotification w n).2 = true →
      ∃ (i : Nat) (l : PaymentLine), w.lines[i]? = some l ∧ l.tamaraOrderId = n.order_id ∧
        (onTamaraNotification w n).1.lines[i]? =
          some { l with transaction_id := jsOr n.transaction_id l.tamaraOrderId,
                        payment_status := "done" }) := by
  have e : (handleTamaraStatusResponse t line n).2 = statusLine line n := by
    rw [handle_eq]; split <;> rfl
  have e2 : statusLine line n =
      { line with transaction_id := jsOr n.transaction_id n.order_id,
                  payment_status := "done" } := by
    simp [statusLine, h]
  refine ⟨by rw [e, e2], by rw [e, e2], ?_, ?_, ?_⟩
  · intro x hx hne
    rw [e, e2, hx]
    simp [jsOr, hne]
  · intro hf
    rw [e, e2]
    cases hx : n.transaction_id with
    | none => simp [jsOr]
    | some x =>
        rw [hx] at hf
        have : x = "" := by simpa [jsTruthy] using hf
        simp [jsOr, this]
  · intro hfw
    unfold onTamaraNotification at hfw ⊢
    by_cases hc : (n.config_id == w.pos.config_id) = true
    · simp only [hc, if_true] at hfw ⊢
      cases hfind : findFrom (fun line => line.tamaraOrderId == n.order_id) 0 w.lines with
      | none => rw [hfind] at hfw; simp at hfw
      | some il =>
          obtain ⟨i, l⟩ := il
          rw [hfind] at hfw
          by_cases hlive : (!l.is_done && l.get_payment_status != "retry") = true
          · obtain ⟨_, hget, hp⟩ := findFrom_some _ _ _ _ _ hfind
            have hid : l.tamaraOrderId = n.order_id := by simpa using hp
            simp only [Nat.sub_zero] at hget
            have hlt : i < w.lines.length := (List.getElem?_eq_some_iff.mp hget).1
            refine ⟨i, l, hget, hid, ?_⟩
            have e3 : (handleTamaraStatusResponse w.term l n).2 = statusLine l n := by
              rw [handle_eq]; split <;> rfl
            simp only [hlive, if_true]
            simp [hlt, e3, statusLine, h, hid]
          · simp [hlive] at hfw
    · simp [hc] at hfw

/-- Witness of `C7_transaction_id_from_payload`: the approval with the
transaction id `T1` on the waiting line. -/
theorem C7_transaction_id_from_payload_witness :
    approvalT1.status = "approved" ∧
    (handleTamaraStatusResponse waitingTerminal waitingLine approvalT1).2.transaction_id =
      jsOr approvalT1.transaction_id approvalT1.order_id :=
  ⟨by decide,
   (C7_transaction_id_from_payload waitingTerminal waitingLine approvalT1
      (World.start shop [waitingLine]) (by decide)).2.1⟩

/-- C8, as stated, fails: the cashier cancels the payment 2000 ms after the
wait was registered; after `send_payment_cancel` the registration of the
line is still in the table, the poll timer is still active and the deadline
timer is still pending; the only effect is the cancel request. -/
theorem C8_cancel_keeps_the_wait :
    ∃ w : World,
      run (World.start shop [freshLine]) (openWait ++ [(2000, .cancel "L1" false)]) = some w ∧
      w.term.resolver "L1" = some 0 ∧
      w.term.waits = [{ line := 0, pollActive := true, pollDue := 5000,
                        deadlineDue := 300000, deadlinePending := true }] ∧
      w.term.resolveCalls = [] ∧
      w.term.requests.getLast? = some (Request.cancel (some "X")) := by
  refine ⟨_, rfl, ?_⟩
  decide

/-- C8, amended: `send_payment_cancel` sends a cancel request for the order
id stored on the line, when the line is found and holds one, and does
nothing else, whether the request succeeds or throws: the registration
table, the timers, the resolver calls and the dialogs are as before, so a
live wait stays registered with both timers running. -/
theorem C8_cancel_only_sends_request (t : Terminal) (line : Option PaymentLine)
    (remoteThrows : Bool) :
    (send_payment_cancel t line remoteThrows).paymentLineResolvers = t.paymentLineResolvers ∧
    (send_payment_cancel t line remoteThrows).waits = t.waits ∧
    (send_payment_cancel t line remoteThrows).resolveCalls = t.resolveCalls ∧
    (send_payment_cancel t line remoteThrows).dialogs = t.dialogs ∧
    (send_payment_cancel t line remoteThrows).hostResponses = t.hostResponses ∧
    (send_payment_cancel t line remoteThrows).requests =
      t.requests ++
        (match line with
         | some l => if jsTruthy l.tamaraOrderId then [Request.cancel l.tamaraOrderId] else []
         | none => []) := by
  unfold send_payment_cancel
  cases line with
  | none => simp
  | some l =>
      by_cases hl : jsTruthy l.tamaraOrderId = true
      · cases remoteThrows <;> simp [hl]
      · cases remoteThrows <;> simp [hl]

/-- C9: a poll tick on a live registration whose request throws, or whose
response is empty or carries a status that is not terminal, changes nothing
but the log of requests: the line, the registration table, the timers, the
dialogs and the resolver calls are as before, and the next tick finds the
registration and polls again. -/
theorem C9_quiet_tick_changes_nothing (t : Terminal) (k : Nat) (line : PaymentLine)
    (reply : PollReply) (r : Nat) (h : t.resolver line.uuid = some r)
    (hq : reply = .throws ∨ reply = .falsy ∨
      ∃ p, reply = .resp p ∧ p.status ∉ terminalStatuses) :
    (pollTick t k line reply).2 = line ∧
    (pollTick t k line reply).1 =
      { t with requests := t.requests ++ [Request.poll line.tamaraOrderId] } ∧
    (pollTick t k line reply).1.paymentLineResolvers = t.paymentLineResolvers ∧
    (pollTick t k line reply).1.waits = t.waits ∧
    (pollTick t k line reply).1.dialogs = t.dialogs ∧
    (pollTick t k line reply).1.resolveCalls = t.resolveCalls ∧
    (pollTickBegin (pollTick t k line reply).1 k (pollTick t k line reply).2).2 = true := by
  have hb : pollTickBegin t k line =
      ({ t with requests := t.requests ++ [Request.poll line.tamaraOrderId] }, true) := by
    unfold pollTickBegin; rw [h]
  have he : pollTick t k line reply =
      ({ t with requests := t.requests ++ [Request.poll line.tamaraOrderId] }, line) := by
    unfold pollTick
    rw [hb]
    simp only [if_true]
    unfold pollTickEnd
    rcases hq with hq | hq | ⟨p, hq, hp⟩
    · rw [hq]
    · rw [hq]
    · rw [hq]
      have hc : terminalStatuses.contains p.status = false := by
        simpa using hp
      simp only [hc, Bool.false_eq_true, if_false]
  rw [he]
  refine ⟨rfl, rfl, rfl, rfl, rfl, rfl, ?_⟩
  unfold pollTickBegin
  have h2 : Terminal.resolver
      { t with requests := t.requests ++ [Request.poll line.tamaraOrderId] } line.uuid
      = some r := h
  simp only [h2]

/-- Witness of `C9_quiet_tick_changes_nothing`: a tick of the scenario wait
that is answered by a status which is not terminal. -/
theorem C9_quiet_tick_changes_nothing_witness :
    waitingTerminal.resolver waitingLine.uuid = some 0 ∧
    (pollTick waitingTerminal 0 waitingLine pendingReply).2 = waitingLine :=
  ⟨by decide,
   (C9_quiet_tick_changes_nothing waitingTerminal 0 waitingLine pendingReply 0 (by decide)
      (Or.inr (Or.inr ⟨_, rfl, by decide⟩))).1⟩

/-- C10, as stated, fails: the cashier sends a declined payment again on the
same line, which still holds the order id `X`.  While the checkout request
is in flight the approval of `X` is forwarded to the line and sets it to
`done`; then the request throws.  The connectivity message is shown and no
waiter exists, but the guard of `_handle_odoo_connection_failure` leaves the
line in `done`: it does not end in `retry`. -/
theorem C10_failed_checkout_leaves_done_line :
    ∃ w0 w1 w2 : World,
      run (World.start shop [freshLine]) (approvedDuringFailedRetry.take 6) = some w0 ∧
      step w0 21500 (.notify approvalT1) = some w1 ∧
      step w1 22000 (.checkoutEnd 0 .throws) = some w2 ∧
      w0.lines = [{ uuid := "L1", amount := 100, payment_status := "waitingCard",
                    transaction_id := none, tamaraOrderId := some "X" }] ∧
      w0.checkoutsInFlight = [0] ∧
      w1.lines.map (fun l => (l.payment_status, l.transaction_id)) = [("done", some "T1")] ∧
      w2.lines.map (fun l => (l.payment_status, l.transaction_id)) = [("done", some "T1")] ∧
      w2.term.dialogs.getLast? =
        some { title := errorTitle, body := .str connectionMessage } ∧
      w2.term.paymentLineResolvers = [] ∧
      w2.checkoutsInFlight = [] := by
  refine ⟨_, _, _, rfl, rfl, rfl, ?_⟩
  decide

/-- C10, amended: `_tamara_create_checkout` sets the line to `waitingCard`
and sends the checkout request; when the request yields no session the
method returns `false`, creates no waiter and sends nothing else, whatever
the other tasks did while the request was in flight.  When the call throws,
the connectivity message is shown and the line is set to `retry` unless it
is `done` at that moment, in which case it is left as it is.  When the
response reports an error, the line is set to `retry` and the message shown
is the message of that error (the text `Payment request failed` when the
error has none), which is not taken from the connectivity path.  In a run
where nothing else happens while the request is in flight, the line ends in
`retry` in both cases and the registration table and the timers are what
they were before the call. -/
theorem C10_failed_checkout_creates_no_waiter (t : Terminal) (pos : Pos) (now ref : Nat)
    (line : PaymentLine) (phoneNumber : String)
    (during : Terminal → PaymentLine → Terminal × PaymentLine) :
    let b := _tamara_create_checkout_begin t pos line phoneNumber
    let m := during b.1 b.2
    (b.2 = line.set_payment_status "waitingCard" ∧
     b.1 = t.withRequest (Request.checkout phoneNumber line.amount pos.currency
       (pos.order_uuid ++ "--" ++ toString pos.session_id))) ∧
    (let s := _tamara_create_checkout t pos now ref line phoneNumber during .throws
     s.2.2 = .value false ∧
     s.1.paymentLineResolvers = m.1.paymentLineResolvers ∧ s.1.waits = m.1.waits ∧
     s.1.resolveCalls = m.1.resolveCalls ∧ s.1.requests = m.1.requests ∧
     s.1.dialogs = m.1.dialogs ++ [{ title := errorTitle, body := .str connectionMessage }] ∧
     s.2.1 = (if m.2.is_done then m.2 else m.2.set_payment_status "retry") ∧
     (m.2.is_done = false → s.2.1.payment_status = "retry") ∧
     (m.2.is_done = true → s.2.1.payment_status = "done")) ∧
    (∀ (message order_id : Option String) (demo_mode : Bool),
     let s := _tamara_create_checkout t pos now ref line phoneNumber during
       (.resp { error := some message, order_id := order_id, demo_mode := demo_mode })
     s.2.2 = .value false ∧
     s.1.paymentLineResolvers = m.1.paymentLineResolvers ∧ s.1.waits = m.1.waits ∧
     s.1.resolveCalls = m.1.resolveCalls ∧ s.1.requests = m.1.requests ∧
     s.1.dialogs = m.1.dialogs ++ [{ title := errorTitle, body := .str (shownError message) }] ∧
     s.2.1 = m.2.set_payment_status "retry" ∧ s.2.1.payment_status = "retry") ∧
    (∀ (reply : CheckoutReply), reply = .throws ∨
        (∃ message order_id demo_mode, reply =
          .resp { error := some message, order_id := order_id, demo_mode := demo_mode }) →
     let s := _tamara_create_checkout t pos now ref line phoneNumber undisturbed reply
     s.2.1.payment_status = "retry" ∧ s.2.2 = .value false ∧
     s.1.paymentLineResolvers = t.paymentLineResolvers ∧ s.1.waits = t.waits ∧
     s.1.resolveCalls = t.resolveCalls ∧
     s.1.requests = t.requests ++ [Request.checkout phoneNumber line.amount pos.currency
       (pos.order_uuid ++ "--" ++ toString pos.session_id)]) ∧
    requestFailedMessage ≠ connectionMessage := by
  intro b m
  have hthrow : ∀ (t2 : Terminal) (l2 : PaymentLine),
      _tamara_create_checkout_end t2 now ref l2 .throws =
        (t2._show_error (.str connectionMessage),
         if l2.is_done then l2 else l2.set_payment_status "retry", .value false) := by
    intro t2 l2
    unfold _tamara_create_checkout_end _handle_odoo_connection_failure
    cases l2.is_done <;> rfl
  have herr : ∀ (t2 : Terminal) (l2 : PaymentLine) (message order_id : Option String)
      (demo_mode : Bool),
      _tamara_create_checkout_end t2 now ref l2
          (.resp { error := some message, order_id := order_id, demo_mode := demo_mode }) =
        (t2._show_error (.str (shownError message)), l2.set_payment_status "retry",
         .value false) := by
    intro t2 l2 message order_id demo_mode
    unfold _tamara_create_checkout_end shownError
    cases message with
    | none => simp [jsOr]
    | some x => by_cases hx : x = "" <;> simp [jsOr, hx]
  have hs : ∀ reply, _tamara_create_checkout t pos now ref line phoneNumber during reply =
      _tamara_create_checkout_end m.1 now ref m.2 reply := fun _ => rfl
  have hu : ∀ reply, _tamara_create_checkout t pos now ref line phoneNumber undisturbed reply =
      _tamara_create_checkout_end b.1 now ref b.2 reply := fun _ => rfl
  refine ⟨⟨rfl, rfl⟩, ?_, ?_, ?_, by decide⟩
  · intro s
    have e : s = _ := (hs .throws).trans (hthrow m.1 m.2)
    rw [e]
    refine ⟨rfl, rfl, rfl, rfl, rfl, rfl, rfl, ?_, ?_⟩
    · intro hd
      simp only [hd, Bool.false_eq_true, if_false]
      rfl
    · intro hd
      simp only [hd, if_true]
      simpa [PaymentLine.is_done] using hd
  · intro message order_id demo_mode s
    have e : s = _ := (hs _).trans (herr m.1 m.2 message order_id demo_mode)
    rw [e]
    exact ⟨rfl, rfl, rfl, rfl, rfl, rfl, rfl, rfl⟩
  · intro reply hr s
    rcases hr with hr | ⟨message, order_id, demo_mode, hr⟩
    · have e : s = _ := ((congrArg _ hr).trans (hu .throws)).trans (hthrow b.1 b.2)
      rw [e]
      exact ⟨rfl, rfl, rfl, rfl, rfl, rfl⟩
    · have e : s = _ := ((congrArg _ hr).trans (hu _)).trans
        (herr b.1 b.2 message order_id demo_mode)
      rw [e]
      exact ⟨rfl, rfl, rfl, rfl, rfl, rfl⟩

/-! ## Lemmas on prompts and validation -/

theorem mk_eq_empty (l : List Char) : String.mk l = "" ↔ l = [] := by
  constructor
  · intro h
    have := congrArg String.data h
    simpa using this
  · intro h; rw [h]

theorem inZeroToNine_eq_isDigit (c : Char) : inZeroToNine c = c.isDigit := by
  rfl

theorem all_dropWhile (p : Char → Bool) (l : List Char) :
    (∀ x ∈ l.dropWhile p, p x = true) ↔ ∀ x ∈ l, p x = true := by
  induction l with
  | nil => simp
  | cons a l ih =>
      by_cases h : p a = true
      · simp [List.dropWhile_cons, h, ih]
      · simp [List.dropWhile_cons, h]

/-- Trimming leaves something exactly when the text has a character that is
not white space. -/
theorem jsTrim_ne_empty_iff (text : String) :
    jsTrim text ≠ "" ↔ specOrderIdAccepted text := by
  unfold jsTrim specOrderIdAccepted
  rw [Ne, mk_eq_empty, List.reverse_eq_nil_iff, List.dropWhile_eq_nil_iff]
  simp only [List.mem_reverse]
  rw [all_dropWhile]
  simp

/-- The two ways of removing white space and hyphens agree. -/
theorem removeSpacesAndHyphens_eq (text : String) :
    removeSpacesAndHyphens text = specCleanedPhone text := by
  unfold removeSpacesAndHyphens specCleanedPhone
  congr 1
  apply List.filter_congr
  intro c _
  cases jsWhitespace c <;> simp [bne]

/-- The regular expression on a list of characters: an optional leading
`+`, then 10 to 15 decimal digits. -/
theorem phonePattern_mk (kept : List Char) :
    phonePattern (String.mk kept) = true ↔
      ((∀ c ∈ (if kept.head? = some '+' then kept.tail else kept), c.isDigit = true) ∧
       10 ≤ (if kept.head? = some '+' then kept.tail else kept).length ∧
       (if kept.head? = some '+' then kept.tail else kept).length ≤ 15) := by
  unfold phonePattern
  simp only [String.toList]
  cases kept with
  | nil => simp
  | cons a rest =>
      by_cases ha : a = '+'
      · subst ha
        simp [inZeroToNine_eq_isDigit, and_assoc]
      · have hm : (match a :: rest with
            | '+' :: r => r
            | cs => cs) = a :: rest := by
          split
          · rename_i heq
            simp at heq
            exact absurd heq.1 ha
          · rfl
        simp only [hm]
        simp [inZeroToNine_eq_isDigit, ha, and_assoc]

/-- The regular expression of `_ask_phone_number`, applied to the cleaned
text, accepts exactly the texts that the spec accepts. -/
theorem phonePattern_iff (text : String) :
    phonePattern (removeSpacesAndHyphens text) = true ↔ specPhoneAccepted text := by
  rw [removeSpacesAndHyphens_eq]
  unfold specPhoneAccepted specCleanedPhone
  exact phonePattern_mk _

/-- The refund path when the order id entered is not empty after trimming
and the request throws. -/
theorem refund_throws (t : Terminal) (pos : Pos) (line : PaymentLine) (entered : String)
    (h2 : jsTrim entered ≠ "") :
    _tamara_process_refund t pos line (some entered) .throws =
      ((t.withRequest (refundRequest pos line (jsTrim entered)))._show_error
         (.str connectionMessage),
       if line.is_done then line else line.set_payment_status "retry", false) := by
  have hne : entered ≠ "" := by
    intro h
    rw [h] at h2
    exact h2 (by decide)
  unfold _tamara_process_refund _ask_tamara_order_id
  simp only [hne, h2, if_false]
  unfold _handle_odoo_connection_failure
  cases line.is_done <;> rfl

/-- The refund path when the order id entered is not empty after trimming
and the response reports an error. -/
theorem refund_error (t : Terminal) (pos : Pos) (line : PaymentLine) (entered : String)
    (r : RefundResponse) (m : Option String) (h2 : jsTrim entered ≠ "")
    (he : r.error = some m) :
    _tamara_process_refund t pos line (some entered) (.resp r) =
      ((t.withRequest (refundRequest pos line (jsTrim entered)))._show_error
         (JsVal.ofOption m),
       line.set_payment_status "retry", false) := by
  have hne : entered ≠ "" := by
    intro h
    rw [h] at h2
    exact h2 (by decide)
  unfold _tamara_process_refund _ask_tamara_order_id
  simp only [hne, h2, if_false, he]
  rfl

/-- The refund path when the order id entered is not empty after trimming
and the response reports no error. -/
theorem refund_done (t : Terminal) (pos : Pos) (line : PaymentLine) (entered : String)
    (r : RefundResponse) (h2 : jsTrim entered ≠ "") (he : r.error = none) :
    _tamara_process_refund t pos line (some entered) (.resp r) =
      ((t.withRequest (refundRequest pos line (jsTrim entered)))._show_info
         (.str (if r.demo_mode then demoRefundMessage else refundDoneMessage r.refund_id)),
       ({ line with transaction_id := jsOr r.refund_id (some (jsTrim entered)) }
          ).set_payment_status "done",
       true) := by
  have hne : entered ≠ "" := by
    intro h
    rw [h] at h2
    exact h2 (by decide)
  unfold _tamara_process_refund _ask_tamara_order_id
  simp only [hne, h2, if_false, he]
  cases r.demo_mode <;> rfl

/-- C11, as stated, fails at two inputs.  A cashier who enters only blanks as
order id has entered a text that is not empty, and `send_payment_request`
sends no refund request: the text is trimmed first and the empty result is
refused.  And when the refund request of a line that is already `done`
throws, the guard of `_handle_odoo_connection_failure` leaves the line in
`done` with the transaction id it had. -/
theorem C11_blank_order_id_sends_no_refund :
    send_payment_request Terminal.setup shop 0 0 (some refundLine) (some "   ") .throws
        refundR1 =
      (Terminal.setup, some (refundLine.set_payment_status "retry"), .value false) ∧
    (send_payment_request Terminal.setup shop 0 0
        (some { refundLine with payment_status := "done", transaction_id := some "OLD" })
        (some "ABC") .throws .throws).2 =
      (some { refundLine with payment_status := "done", transaction_id := some "OLD" },
       .value false) := by
  decide

/-- C11, amended: for every line with a negative amount and an entered order
id that is not empty after trimming, `send_payment_request` sends exactly
one request, the refund of the trimmed order id with the absolute value of
the amount, registers no resolver, starts no timer and returns a value at
once.  When the response has no error the line is `done` and its
transaction id is the refund id of the response, or the trimmed order id
when the response has none, and the result is `true`.  When the response
has an error the line is `retry` and the result is `false`.  When the call
throws the result is `false` and the line is `retry`, unless it was already
`done`, in which case it is left as it was. -/
theorem C11_refund_bypasses_waiting (t : Terminal) (pos : Pos) (now ref : Nat)
    (line : PaymentLine) (entered : String) (checkoutReply : CheckoutReply)
    (refundReply : RefundReply) (h1 : line.amount < 0) (h2 : jsTrim entered ≠ "") :
    let s := send_payment_request t pos now ref (some line) (some entered) checkoutReply
      refundReply
    s.1.requests =
      t.requests ++ [Request.refund (jsTrim entered) |line.amount| pos.currency "POS Refund"] ∧
    s.1.paymentLineResolvers = t.paymentLineResolvers ∧
    s.1.waits = t.waits ∧
    s.1.resolveCalls = t.resolveCalls ∧
    (∃ b, s.2.2 = .value b) ∧
    (∀ r, refundReply = .resp r → r.error = none →
      s.2.1.map (fun l => l.payment_status) = some "done" ∧
      s.2.1.map (fun l => l.transaction_id) =
        some (jsOr r.refund_id (some (jsTrim entered))) ∧
      (∀ x, r.refund_id = some x → x ≠ "" →
        s.2.1.map (fun l => l.transaction_id) = some (some x)) ∧
      (jsTruthy r.refund_id = false →
        s.2.1.map (fun l => l.transaction_id) = some (some (jsTrim entered))) ∧
      s.2.2 = .value true) ∧
    (∀ r m, refundReply = .resp r → r.error = some m →
      s.2.1 = some (line.set_payment_status "retry") ∧ s.2.2 = .value false) ∧
    (refundReply = .throws →
      s.2.1 = some (if line.is_done then line else line.set_payment_status "retry") ∧
      s.2.2 = .value false) := by
  have habs : ((Int.natAbs line.amount : Nat) : Int) = |line.amount| := Int.natCast_natAbs _
  intro s
  have hs : s = ((_tamara_process_refund t pos line (some entered) refundReply).1,
      some (_tamara_process_refund t pos line (some entered) refundReply).2.1,
      .value (_tamara_process_refund t pos line (some entered) refundReply).2.2) := by
    show send_payment_request t pos now ref (some line) (some entered) checkoutReply
      refundReply = _
    unfold send_payment_request
    simp [h1]
  have hreq : t.requests ++ [refundRequest pos line (jsTrim entered)] =
      t.requests ++ [Request.refund (jsTrim entered) |line.amount| pos.currency "POS Refund"] := by
    unfold refundRequest
    rw [habs]
  rw [hs]
  cases refundReply with
  | throws =>
      rw [refund_throws t pos line entered h2]
      refine ⟨hreq, rfl, rfl, rfl, ⟨false, rfl⟩, ?_, ?_, ?_⟩
      · intro r hr; cases hr
      · intro r m hr; cases hr
      · intro _; exact ⟨rfl, rfl⟩
  | resp r =>
      cases he : r.error with
      | some m =>
          rw [refund_error t pos line entered r m h2 he]
          refine ⟨hreq, rfl, rfl, rfl, ⟨false, rfl⟩, ?_, ?_, ?_⟩
          · intro r1 hr hn
            cases hr
            rw [he] at hn
            cases hn
          · intro r1 m1 _ _; exact ⟨rfl, rfl⟩
          · intro hr; cases hr
      | none =>
          rw [refund_done t pos line entered r h2 he]
          refine ⟨hreq, rfl, rfl, rfl, ⟨true, rfl⟩, ?_, ?_, ?_⟩
          · intro r1 hr _
            cases hr
            refine ⟨rfl, rfl, ?_, ?_, rfl⟩
            · intro x hx hxe
              show some (jsOr r.refund_id (some (jsTrim entered))) = some (some x)
              rw [hx]
              simp [jsOr, hxe]
            · intro hf
              show some (jsOr r.refund_id (some (jsTrim entered))) = some (some (jsTrim entered))
              cases hr : r.refund_id with
              | none => simp [jsOr]
              | some x =>
                  rw [hr] at hf
                  have : x = "" := by simpa [jsTruthy] using hf
                  simp [jsOr, this]
          · intro r1 m1 hr hm
            cases hr
            rw [he] at hm
            cases hm
          · intro hr; cases hr

/-- Witness of `C11_refund_bypasses_waiting`: the refund of 50 with the order
id `ABC`, answered with the refund id `R1`. -/
theorem C11_refund_bypasses_waiting_witness :
    (refundLine.amount < 0 ∧ jsTrim "ABC" ≠ "") ∧
    (send_payment_request Terminal.setup shop 0 0 (some refundLine) (some "ABC") .throws
      refundR1).1.requests =
      Terminal.setup.requests ++
        [Request.refund (jsTrim "ABC") |refundLine.amount| shop.currency "POS Refund"] :=
  ⟨by decide,
   (C11_refund_bypasses_waiting Terminal.setup shop 0 0 refundLine "ABC" .throws refundR1
      (by decide) (by decide)).1⟩

/-- A text that the spec accepts as phone number is not empty, and neither
is what is left of it after cleaning. -/
theorem accepted_phone_not_empty (text : String) (h : specPhoneAccepted text) :
    text ≠ "" ∧ specCleanedPhone text ≠ "" := by
  have hk : text.toList.filter (fun c => !jsWhitespace c && c != '-') ≠ [] := by
    intro hk
    unfold specPhoneAccepted at h
    simp only [hk] at h
    simp at h
  constructor
  · intro ht
    rw [ht] at hk
    exact hk rfl
  · unfold specCleanedPhone
    rw [Ne, mk_eq_empty]
    exact hk

/-- On a text that the spec accepts, `_ask_phone_number` gives the cleaned
text and shows nothing. -/
theorem ask_phone_accepted (t : Terminal) (text : String) (h : specPhoneAccepted text) :
    _ask_phone_number t (some text) = (t, some (specCleanedPhone text)) := by
  have hne := (accepted_phone_not_empty text h).1
  have hp : phonePattern (removeSpacesAndHyphens text) = true := (phonePattern_iff text).mpr h
  unfold _ask_phone_number
  simp only [hne, if_false, hp, Bool.not_true, Bool.false_eq_true]
  rw [removeSpacesAndHyphens_eq]

/-- On a cancelled prompt and on a text that the spec does not accept,
`_ask_phone_number` gives nothing, sends nothing and creates no waiter. -/
theorem ask_phone_rejected (t : Terminal) (prompted : Option String)
    (h : ∀ text, prompted = some text → ¬ specPhoneAccepted text) :
    (_ask_phone_number t prompted).2 = none ∧
    (_ask_phone_number t prompted).1.requests = t.requests ∧
    (_ask_phone_number t prompted).1.paymentLineResolvers = t.paymentLineResolvers ∧
    (_ask_phone_number t prompted).1.waits = t.waits := by
  unfold _ask_phone_number
  cases prompted with
  | none => simp
  | some text =>
      by_cases hne : text = ""
      · simp [hne]
      · have hp : phonePattern (removeSpacesAndHyphens text) = false := by
          cases hq : phonePattern (removeSpacesAndHyphens text) with
          | false => rfl
          | true => exact absurd ((phonePattern_iff text).mp hq) (h text rfl)
        simp [hne, hp, Terminal._show_error]

/-- Whatever the reply, an undisturbed `_tamara_create_checkout` sends the
checkout request and no other request. -/
theorem checkout_requests (t : Terminal) (pos : Pos) (now ref : Nat) (line : PaymentLine)
    (phoneNumber : String) (reply : CheckoutReply) :
    (_tamara_create_checkout t pos now ref line phoneNumber undisturbed reply).1.requests =
      t.requests ++ [Request.checkout phoneNumber line.amount pos.currency
        (pos.order_uuid ++ "--" ++ toString pos.session_id)] := by
  unfold _tamara_create_checkout _tamara_create_checkout_begin _tamara_create_checkout_end
    undisturbed
  cases reply with
  | throws => rfl
  | resp r =>
      cases he : r.error with
      | some m => simp only [he]; rfl
      | none =>
          simp only [he]
          cases r.demo_mode <;> rfl

/-- On a cancelled prompt and on an order id that is empty after trimming,
the refund path sets the line to `retry` and does nothing else. -/
theorem refund_rejected (t : Terminal) (pos : Pos) (line : PaymentLine)
    (prompted : Option String) (reply : RefundReply)
    (h : ∀ text, prompted = some text → ¬ specOrderIdAccepted text) :
    _tamara_process_refund t pos line prompted reply =
      (t, line.set_payment_status "retry", false) := by
  unfold _tamara_process_refund _ask_tamara_order_id
  cases prompted with
  | none => rfl
  | some text =>
      by_cases hne : text = ""
      · simp only [hne, if_true]
      · have ht : jsTrim text = "" := by
          by_contra hc
          exact h text rfl ((jsTrim_ne_empty_iff text).mp hc)
        simp only [hne, if_false, ht, if_true]

/-- On an order id that is not empty after trimming, the refund path sends
the refund request and no other request, whatever the reply. -/
theorem refund_requests (t : Terminal) (pos : Pos) (line : PaymentLine) (entered : String)
    (reply : RefundReply) (h2 : jsTrim entered ≠ "") :
    (_tamara_process_refund t pos line (some entered) reply).1.requests =
      t.requests ++ [refundRequest pos line (jsTrim entered)] := by
  cases reply with
  | throws => rw [refund_throws t pos line entered h2]; rfl
  | resp r =>
      cases he : r.error with
      | some m => rw [refund_error t pos line entered r m h2 he]; rfl
      | none => rw [refund_done t pos line entered r h2 he]; rfl

/-- C12: invalid local input aborts before any remote call.  On a line that
is not a refund, `send_payment_request` sends the checkout request exactly
when the prompted text, without its white space and hyphens, is an optional
leading `+` followed by 10 to 15 decimal digits, and the phone number sent
is that cleaned text.  On a refund line it sends the refund request exactly
when the prompted order id is not empty after trimming.  In every other
case (prompt cancelled, text empty or malformed) no request is sent, no
waiter is created, the line is set to `retry` and the result is `false`. -/
theorem C12_invalid_input_aborts (t : Terminal) (pos : Pos) (now ref : Nat)
    (line : PaymentLine) (prompted : Option String) (checkoutReply : CheckoutReply)
    (refundReply : RefundReply) :
    let s := send_payment_request t pos now ref (some line) prompted checkoutReply refundReply
    (¬ line.amount < 0 →
      (∀ text, prompted = some text → specPhoneAccepted text →
        s.1.requests = t.requests ++ [Request.checkout (specCleanedPhone text) line.amount
          pos.currency (pos.order_uuid ++ "--" ++ toString pos.session_id)]) ∧
      ((∀ text, prompted = some text → ¬ specPhoneAccepted text) →
        s.1.requests = t.requests ∧ s.1.paymentLineResolvers = t.paymentLineResolvers ∧
        s.1.waits = t.waits ∧ s.2.1 = some (line.set_payment_status "retry") ∧
        s.2.2 = .value false) ∧
      (s.1.requests ≠ t.requests ↔ ∃ text, prompted = some text ∧ specPhoneAccepted text)) ∧
    (line.amount < 0 →
      (∀ text, prompted = some text → specOrderIdAccepted text →
        s.1.requests = t.requests ++ [Request.refund (jsTrim text) |line.amount|
          pos.currency "POS Refund"]) ∧
      ((∀ text, prompted = some text → ¬ specOrderIdAccepted text) →
        s.1.requests = t.requests ∧ s.1.paymentLineResolvers = t.paymentLineResolvers ∧
        s.1.waits = t.waits ∧ s.2.1 = some (line.set_payment_status "retry") ∧
        s.2.2 = .value false) ∧
      (s.1.requests ≠ t.requests ↔
        ∃ text, prompted = some text ∧ specOrderIdAccepted text)) := by
  intro s
  have grow : ∀ (l : List Request) (x : Request), l ++ [x] ≠ l := by
    intro l x h
    have := congrArg List.length h
    simp at this
  constructor
  · intro hpos
    have hA : ∀ text, prompted = some text → specPhoneAccepted text →
        s.1.requests = t.requests ++ [Request.checkout (specCleanedPhone text) line.amount
          pos.currency (pos.order_uuid ++ "--" ++ toString pos.session_id)] := by
      intro text hp hacc
      show (send_payment_request t pos now ref (some line) prompted checkoutReply
        refundReply).1.requests = _
      unfold send_payment_request
      have hc := (accepted_phone_not_empty text hacc).2
      have hb : (!(specCleanedPhone text != "")) = false := by simp [hc]
      simp only [hpos, if_false, hp, ask_phone_accepted t text hacc, jsTruthy, hb,
        Bool.false_eq_true, Option.getD_some]
      exact checkout_requests t pos now ref line _ checkoutReply
    have hB : (∀ text, prompted = some text → ¬ specPhoneAccepted text) →
        s.1.requests = t.requests ∧ s.1.paymentLineResolvers = t.paymentLineResolvers ∧
        s.1.waits = t.waits ∧ s.2.1 = some (line.set_payment_status "retry") ∧
        s.2.2 = .value false := by
      intro hrej
      obtain ⟨h1, h2, h3, h4⟩ := ask_phone_rejected t prompted hrej
      show (send_payment_request t pos now ref (some line) prompted checkoutReply
          refundReply).1.requests = _ ∧
        (send_payment_request t pos now ref (some line) prompted checkoutReply
          refundReply).1.paymentLineResolvers = _ ∧
        (send_payment_request t pos now ref (some line) prompted checkoutReply
          refundReply).1.waits = _ ∧
        (send_payment_request t pos now ref (some line) prompted checkoutReply
          refundReply).2.1 = _ ∧
        (send_payment_request t pos now ref (some line) prompted checkoutReply
          refundReply).2.2 = _
      unfold send_payment_request
      simp only [hpos, if_false]
      generalize _ask_phone_number t prompted = q at h1 h2 h3 h4
      obtain ⟨q1, q2⟩ := q
      simp only at h1 h2 h3 h4
      subst h1
      simp only [jsTruthy, Bool.not_false, if_true]
      exact ⟨h2, h3, h4, trivial, trivial⟩
    refine ⟨hA, hB, ?_⟩
    constructor
    · intro hne
      by_contra hno
      have hrej : ∀ text, prompted = some text → ¬ specPhoneAccepted text :=
        fun text hp hacc => hno ⟨text, hp, hacc⟩
      exact hne (hB hrej).1
    · rintro ⟨text, hp, hacc⟩
      rw [hA text hp hacc]
      exact grow _ _
  · intro hneg
    have hs : s = ((_tamara_process_refund t pos line prompted refundReply).1,
        some (_tamara_process_refund t pos line prompted refundReply).2.1,
        .value (_tamara_process_refund t pos line prompted refundReply).2.2) := by
      show send_payment_request t pos now ref (some line) prompted checkoutReply
        refundReply = _
      unfold send_payment_request
      simp [hneg]
    have hA : ∀ text, prompted = some text → specOrderIdAccepted text →
        s.1.requests = t.requests ++ [Request.refund (jsTrim text) |line.amount|
          pos.currency "POS Refund"] := by
      intro text hp hacc
      subst hp
      rw [hs]
      show (_tamara_process_refund t pos line (some text) refundReply).1.requests = _
      rw [refund_requests t pos line text refundReply ((jsTrim_ne_empty_iff text).mpr hacc)]
      unfold refundRequest
      rw [Int.natCast_natAbs]
    have hB : (∀ text, prompted = some text → ¬ specOrderIdAccepted text) →
        s.1.requests = t.requests ∧ s.1.paymentLineResolvers = t.paymentLineResolvers ∧
        s.1.waits = t.waits ∧ s.2.1 = some (line.set_payment_status "retry") ∧
        s.2.2 = .value false := by
      intro hrej
      rw [hs, refund_rejected t pos line prompted refundReply hrej]
      exact ⟨rfl, rfl, rfl, rfl, rfl⟩
    refine ⟨hA, hB, ?_⟩
    constructor
    · intro hne
      by_contra hno
      have hrej : ∀ text, prompted = some text → ¬ specOrderIdAccepted text :=
        fun text hp hacc => hno ⟨text, hp, hacc⟩
      exact hne (hB hrej).1
    · rintro ⟨text, hp, hacc⟩
      rw [hA text hp hacc]
      exact grow _ _
/-- Witness of `C12_invalid_input_aborts`: a number written with blanks and a
hyphen is accepted and sent cleaned; a number of seven digits is refused and
nothing is sent. -/
theorem C12_invalid_input_aborts_witness :
    (¬ freshLine.amount < 0 ∧ specPhoneAccepted "+966 50-123 4567" ∧
      ¬ specPhoneAccepted "0501234") ∧
    (send_payment_request Terminal.setup shop 0 0 (some freshLine) (some "+966 50-123 4567")
      sessionX refundR1).1.requests =
      Terminal.setup.requests ++ [Request.checkout (specCleanedPhone "+966 50-123 4567")
        freshLine.amount shop.currency (shop.order_uuid ++ "--" ++ toString shop.session_id)] :=
  ⟨by decide,
   ((C12_invalid_input_aborts Terminal.setup shop 0 0 freshLine (some "+966 50-123 4567")
      sessionX refundR1).1 (by decide)).1 _ rfl (by decide)⟩

end Tamara
